import Mathlib

/-!
Shallow embedding of the Travel Condition API (`src/main.py`), a single-endpoint
FastAPI service that resolves a city query to coordinates by filtering geocoding
candidates, fetches current weather, and produces a travel score and verdict.

Numbers are modelled as rationals (`ℚ`), Python string operations by their Lean
counterparts, optional dict fields by `Option String` with `Option.getD`
mirroring `dict.get(key, default)`.
-/

/-- A geocoding candidate as returned by the provider (`geo_data["results"]`
entries).  `name`, `latitude`, `longitude` are accessed with `[]` in the code
(always present); `country`, `country_code`, `admin1` are accessed with `.get`
and may be missing. -/
structure Candidate where
  name : String
  latitude : ℚ
  longitude : ℚ
  country : Option String
  country_code : Option String
  admin1 : Option String
deriving Repr, DecidableEq

/-- The dict returned by `get_score`: keys `"score"` and `"score_verdict"`. -/
structure ScoreResult where
  score : ℚ
  score_verdict : String
deriving Repr, DecidableEq

/-- Embedding of `get_score(temp, wind, rain)` from `src/main.py` lines 36-105.
Sequential mutation of `score` and `score_verdict` becomes let-shadowing; the
final dict carries `max(0, score)`. -/
def get_score (temp wind rain : ℚ) : ScoreResult :=
  let score : ℚ := 100
  let score_verdict : String := "Perfect"
  let ideal_temp : ℚ := 25
  let diff := |temp - ideal_temp|
  let score := score - diff * 2.0
  let score_verdict :=
    if temp < -5 then "Dangerously Cold"
    else if temp < 0 then "Freezing"
    else if temp < 5 then "Very Cold"
    else if temp < 10 then "Cold"
    else if temp < 16 then "Chilly"
    else if temp < 26 then "Perfect"
    else if temp < 30 then "Warm"
    else if temp < 35 then "Hot"
    else if temp < 40 then "Very Hot"
    else "Dangerously Hot"
  let ideal_wind : ℚ := 0
  let diff := |wind - ideal_wind|
  let score := score - diff * 0.5
  let score_verdict := score_verdict ++
    (if wind < 5 then " & Calm Winds"
     else if wind < 12 then " & Light Breeze"
     else if wind < 20 then " & Breezy"
     else if wind < 30 then " & Windy"
     else if wind < 50 then " & Strong Winds"
     else if wind < 75 then " & Gale Force"
     else " & Violent Storm")
  let ideal_rain : ℚ := 0
  let diff := |rain - ideal_rain|
  let score := score - diff * 4.0
  let score_verdict := score_verdict ++
    (if rain == 0 then " & Dry Conditions"
     else if rain < 0.5 then " & Drizzling"
     else if rain < 2.5 then " & Light Rain"
     else if rain < 7.6 then " & Moderate Rain"
     else if rain < 10 then " & Heavy Rain"
     else if rain < 50 then " & Potential Floods"
     else " & Torrential/Flash Flooding")
  { score := max 0 score, score_verdict := score_verdict }

/-- Substring containment, modelling the Python `pat in s` test on strings. -/
def strContains (s pat : String) : Bool :=
  decide (pat.data <:+: s.data)

/-- Python truthiness of the optional `state` query parameter: `if state:` is
true exactly when it is present and non-empty. -/
def stateGiven : Option String → Bool
  | none => false
  | some s => !(s == "")

/-- Embedding of the candidate loop of `recommend_trip` (`src/main.py` lines
140-153): skip a candidate when `country_code` is truthy and the upper-cased
codes differ, skip when `state` is truthy and its lower-casing is not a
substring of the lower-cased `admin1`; otherwise select it and stop. -/
def selectLocation (country_code : String) (state : Option String) :
    List Candidate → Option Candidate
  | [] => none
  | c :: rest =>
    if !(country_code == "") && !((c.country_code.getD "").toUpper == country_code.toUpper) then
      selectLocation country_code state rest
    else if stateGiven state &&
        !(strContains ((c.admin1.getD "").toLower) ((state.getD "").toLower)) then
      selectLocation country_code state rest
    else
      some c

/-- The filter predicate as the specification words it: the candidate's country
code equals the query's case-insensitively, and when a state is given its
lower-casing occurs inside the lower-cased region field. -/
def matchesQuery (country_code : String) (state : Option String) (c : Candidate) : Bool :=
  ((c.country_code.getD "").toUpper == country_code.toUpper) &&
  (match state with
   | none => true
   | some s => strContains ((c.admin1.getD "").toLower) (s.toLower))

/-- Error responses raised by the endpoint: `HTTPException(404, detail)` and
`HTTPException(503, detail)`. -/
inductive ApiError where
  | notFound (detail : String)
  | serviceUnavailable (detail : String)
deriving Repr, DecidableEq

/-- The location data extracted from the selected candidate (`src/main.py`
lines 160-164). -/
structure ResolvedLocation where
  name : String
  state : String
  country : String
  latitude : ℚ
  longitude : ℚ
deriving Repr, DecidableEq

/-- Python `state or 'any state'` in the 404 message f-string. -/
def stateOrDefault : Option String → String
  | none => "any state"
  | some s => if s == "" then "any state" else s

/-- The 404 detail built at `src/main.py` line 157:
`f"Could not find {city} in {state or 'any state'}, {country_code or 'any country'}"`. -/
def notFoundDetail (city : String) (state : Option String) (country_code : String) : String :=
  "Could not find " ++ city ++ " in " ++ stateOrDefault state ++ ", " ++
    (if country_code == "" then "any country" else country_code)

/-- Embedding of the resolution step of `recommend_trip` (`src/main.py` lines
133-164): 404 when the provider returned no results, candidate loop, 404 with
the detailed message when nothing was selected, otherwise the extracted
location (missing `country`/`admin1` default to `"Unknown"`). -/
def resolveLocation (country_code city : String) (state : Option String)
    (results : List Candidate) : Except ApiError ResolvedLocation :=
  if results.isEmpty then
    Except.error (ApiError.notFound "City could not be found")
  else
    match selectLocation country_code state results with
    | none => Except.error (ApiError.notFound (notFoundDetail city state country_code))
    | some c =>
        Except.ok
          { name := c.name
            state := c.admin1.getD "Unknown"
            country := c.country.getD "Unknown"
            latitude := c.latitude
            longitude := c.longitude }

/-- The `details` object of the response (`src/main.py` lines 196-200). -/
structure Weather where
  temperature_c : ℚ
  condition : String
  wind_speed : ℚ
deriving Repr, DecidableEq

/-- The `Recommendation` response body (`src/main.py` lines 27-33 and 190-201).
The dict built by the endpoint always carries a string state, and the score is
whatever rational `get_score` produced. -/
structure Recommendation where
  country : String
  city : String
  state : String
  score : ℚ
  score_verdict : String
  details : Weather
deriving Repr, DecidableEq

/-- Embedding of the response assembly of `recommend_trip` (`src/main.py`
lines 187-201), taking the resolved location and the extracted weather values
`temp`, `rain`, `wind`. -/
def buildRecommendation (loc : ResolvedLocation) (temp rain wind : ℚ) : Recommendation :=
  let analysis := get_score temp wind rain
  { city := loc.name
    state := loc.state
    country := loc.country
    score := analysis.score
    score_verdict := analysis.score_verdict
    details :=
      { temperature_c := temp
        condition := if rain > 0 then "Raining" else "Clear"
        wind_speed := wind } }

/-- The first candidate of the specification's resolver example: Warwick in
Rhode Island, US. -/
def candRI : Candidate :=
  { name := "Warwick", latitude := 0, longitude := 0, country := some "United States",
    country_code := some "US", admin1 := some "Rhode Island" }

/-- The second candidate of the specification's resolver example: Warwick in
New York, US. -/
def candNY : Candidate :=
  { name := "Warwick", latitude := 0, longitude := 0, country := some "United States",
    country_code := some "US", admin1 := some "New York" }

/-! ## Helper lemmas -/

/-- Closed form of the numeric part of `get_score`, used by several proofs. -/
theorem get_score_score_eq (temp wind rain : ℚ) :
    (get_score temp wind rain).score =
      max 0 (100 - |temp - 25| * 2.0 - |wind - 0| * 0.5 - |rain - 0| * 4.0) := by
  simp only [get_score]

theorem strContains_iff (s pat : String) :
    strContains s pat = true ↔ pat.data <:+: s.data := by
  simp [strContains]

theorem strContains_empty_pat (s : String) : strContains s "" = true := by
  simp [strContains]

theorem toLower_empty : "".toLower = "" := by
  rw [String.toLower, String.map_eq]
  decide

theorem toUpper_empty : "".toUpper = "" := by
  rw [String.toUpper, String.map_eq]
  decide

theorem length_toUpper (s : String) : s.toUpper.length = s.length := by
  cases s with
  | mk data =>
    rw [String.toUpper, String.map_eq]
    simp

/-- The candidate loop is a first-match linear scan: whenever the (required,
hence non-empty) country code is given, it returns exactly the first candidate
satisfying the specification's filter predicate. -/
theorem selectLocation_eq_find (cc : String) (st : Option String) (h : cc ≠ "")
    (l : List Candidate) :
    selectLocation cc st l = List.find? (matchesQuery cc st) l := by
  have hcc : (cc == "") = false := by simp [h]
  induction l with
  | nil => rfl
  | cons c rest ih =>
    cases hup : ((c.country_code.getD "").toUpper == cc.toUpper) with
    | false =>
      simp [selectLocation, matchesQuery, hcc, hup, ih, List.find?_cons]
    | true =>
      rcases st with _ | s
      · simp [selectLocation, matchesQuery, stateGiven, hcc, hup, List.find?_cons]
      · cases hstr : strContains ((c.admin1.getD "").toLower) (s.toLower) with
        | true =>
          simp [selectLocation, matchesQuery, stateGiven, hcc, hup, hstr, List.find?_cons]
        | false =>
          have hs : (s == "") = false := by
            rcases eq_or_ne s "" with rfl | hne
            · rw [toLower_empty, strContains_empty_pat] at hstr
              exact absurd hstr (by simp)
            · simp [hne]
          simp [selectLocation, matchesQuery, stateGiven, hcc, hup, hstr, hs, ih,
            List.find?_cons]

/-- Evaluation of the loop on the specification's Warwick example. -/
theorem selectLocation_warwick :
    selectLocation "US" (some "rhode") [candRI, candNY] = some candRI := by
  simp only [selectLocation, candRI, candNY, strContains, stateGiven,
    String.toUpper, String.toLower, String.map_eq]
  decide

/-! ## Claims -/

/-- C1: for all inputs, `get_score` returns the graduated deduction formula
`max(0, 100 - 2.0*|temp-25| - 0.5*|wind-0| - 4.0*|rain-0|)` as its score. -/
theorem get_score_graduated_formula (temp wind rain : ℚ) :
    (get_score temp wind rain).score =
      max 0 (100 - 2.0 * |temp - 25| - 0.5 * |wind - 0| - 4.0 * |rain - 0|) := by
  rw [get_score_score_eq]
  ring_nf

/-- C2: the score is always in the interval [0, 100]: never negative thanks to
the floor clamp, never above 100 since the deductions only subtract. -/
theorem get_score_in_range (temp wind rain : ℚ) :
    0 ≤ (get_score temp wind rain).score ∧ (get_score temp wind rain).score ≤ 100 := by
  rw [get_score_score_eq]
  constructor
  · exact le_max_left _ _
  · apply max_le (by norm_num)
    have h1 : (0:ℚ) ≤ |temp - 25| := abs_nonneg _
    have h2 : (0:ℚ) ≤ |wind - 0| := abs_nonneg _
    have h3 : (0:ℚ) ≤ |rain - 0| := abs_nonneg _
    nlinarith

/-- C3: the location resolver is a first-match linear scan over the candidates
in provider order, selecting the first one matching the country code
case-insensitively and, when a state is given, containing it as a lower-cased
substring of the region; in particular the Warwick example selects the
Rhode Island candidate. -/
theorem resolver_first_match (cc : String) (st : Option String) (l : List Candidate)
    (h : cc ≠ "") :
    selectLocation cc st l = List.find? (matchesQuery cc st) l ∧
    selectLocation "US" (some "rhode") [candRI, candNY] = some candRI :=
  ⟨selectLocation_eq_find cc st h l, selectLocation_warwick⟩

/-- Witness for C3 at the concrete Warwick query. -/
theorem resolver_first_match_witness :
    ("US" : String) ≠ "" ∧
    (selectLocation "US" (some "rhode") [candRI, candNY] =
        List.find? (matchesQuery "US" (some "rhode")) [candRI, candNY] ∧
      selectLocation "US" (some "rhode") [candRI, candNY] = some candRI) :=
  ⟨by decide, resolver_first_match "US" (some "rhode") [candRI, candNY] (by decide)⟩

/-- C4: the resolution step returns a 404 NotFound exactly when the provider
returned zero candidates or no candidate passes the filters; in the latter case
the detail message contains the attempted city, state and country code. -/
theorem resolver_notFound_iff (cc city : String) (st : Option String)
    (results : List Candidate) (h : cc ≠ "") :
    ((∃ d, resolveLocation cc city st results = Except.error (ApiError.notFound d)) ↔
      (results = [] ∨ ∀ c ∈ results, matchesQuery cc st c = false)) ∧
    (results ≠ [] → (∀ c ∈ results, matchesQuery cc st c = false) →
      (resolveLocation cc city st results =
          Except.error (ApiError.notFound (notFoundDetail city st cc)) ∧
        strContains (notFoundDetail city st cc) city = true ∧
        (∀ s, st = some s → s ≠ "" → strContains (notFoundDetail city st cc) s = true) ∧
        strContains (notFoundDetail city st cc) cc = true)) := by
  have hfind := selectLocation_eq_find cc st h results
  have hiff : List.find? (matchesQuery cc st) results = none ↔
      ∀ c ∈ results, matchesQuery cc st c = false := by
    rw [List.find?_eq_none]
    simp
  constructor
  · constructor
    · rintro ⟨d, hd⟩
      by_cases hres : results.isEmpty
      · exact Or.inl (by simpa using hres)
      · right
        rw [resolveLocation, if_neg hres, hfind] at hd
        rw [← hiff]
        cases hsel : List.find? (matchesQuery cc st) results with
        | none => rfl
        | some c => rw [hsel] at hd; simp at hd
    · intro hor
      rcases hor with rfl | hnone
      · exact ⟨"City could not be found", rfl⟩
      · rw [← hiff] at hnone
        by_cases hres : results.isEmpty
        · exact ⟨"City could not be found", by rw [resolveLocation, if_pos hres]⟩
        · exact ⟨notFoundDetail city st cc,
            by rw [resolveLocation, if_neg hres, hfind, hnone]⟩
  · intro hne hnone
    rw [← hiff] at hnone
    have hres : ¬ results.isEmpty = true := by simp [hne]
    refine ⟨by rw [resolveLocation, if_neg hres, hfind, hnone], ?_, ?_, ?_⟩
    · rw [strContains_iff, notFoundDetail]
      refine ⟨("Could not find ").data, (" in " ++ stateOrDefault st ++ ", " ++
        (if cc == "" then "any country" else cc)).data, ?_⟩
      simp [List.append_assoc]
    · intro s hst hsne
      subst hst
      rw [strContains_iff, notFoundDetail]
      have hsd : stateOrDefault (some s) = s := by simp [stateOrDefault, hsne]
      rw [hsd]
      refine ⟨("Could not find " ++ city ++ " in ").data,
        (", " ++ (if cc == "" then "any country" else cc)).data, ?_⟩
      simp [List.append_assoc]
    · rw [strContains_iff, notFoundDetail]
      have hccne : (if cc == "" then "any country" else cc) = cc := by simp [h]
      rw [hccne]
      refine ⟨("Could not find " ++ city ++ " in " ++ stateOrDefault st ++ ", ").data,
        ([] : List Char), ?_⟩
      simp [List.append_assoc]

/-- Witness for C4 at a concrete query whose only candidate fails the country
filter. -/
theorem resolver_notFound_iff_witness :
    ("GB" : String) ≠ "" ∧
    (((∃ d, resolveLocation "GB" "Warwick" none [candRI] =
          Except.error (ApiError.notFound d)) ↔
        ([candRI] = ([] : List Candidate) ∨
          ∀ c ∈ [candRI], matchesQuery "GB" none c = false)) ∧
      (([candRI] : List Candidate) ≠ [] →
        (∀ c ∈ [candRI], matchesQuery "GB" none c = false) →
        (resolveLocation "GB" "Warwick" none [candRI] =
            Except.error (ApiError.notFound (notFoundDetail "Warwick" none "GB")) ∧
          strContains (notFoundDetail "Warwick" none "GB") "Warwick" = true ∧
          (∀ s, (none : Option String) = some s → s ≠ "" →
            strContains (notFoundDetail "Warwick" none "GB") s = true) ∧
          strContains (notFoundDetail "Warwick" none "GB") "GB" = true))) :=
  ⟨by decide, resolver_notFound_iff "GB" "Warwick" none [candRI] (by decide)⟩

/-- C5: the response's `details.condition` is `"Raining"` when the rainfall is
positive and `"Clear"` otherwise, in particular at rainfall exactly 0. -/
theorem condition_raining_iff (loc : ResolvedLocation) (temp rain wind : ℚ) :
    ((buildRecommendation loc temp rain wind).details.condition =
      if 0 < rain then "Raining" else "Clear") ∧
    (buildRecommendation loc temp 0 wind).details.condition = "Clear" := by
  constructor
  · by_cases hr : 0 < rain
    · simp [buildRecommendation, hr]
    · simp [buildRecommendation, hr]
  · norm_num [buildRecommendation]

/-- C6: with wind and rain at 0, the score is monotonically non-increasing in
the distance of the temperature from 25. -/
theorem get_score_temp_monotone (t1 t2 : ℚ) (h : |t1 - 25| ≤ |t2 - 25|) :
    (get_score t2 0 0).score ≤ (get_score t1 0 0).score := by
  rw [get_score_score_eq, get_score_score_eq]
  apply max_le_max le_rfl
  norm_num
  linarith

/-- Witness for C6 at temperatures 25 and 30. -/
theorem get_score_temp_monotone_witness :
    |(25:ℚ) - 25| ≤ |(30:ℚ) - 25| ∧ (get_score 30 0 0).score ≤ (get_score 25 0 0).score :=
  ⟨by norm_num, get_score_temp_monotone 25 30 (by norm_num)⟩

/-- C7: at temp 25, wind 0, rain 0, the score is 100 and the verdict is the
three perfect tier labels joined by the separator. -/
theorem get_score_perfect_example :
    get_score 25 0 0 =
      { score := 100, score_verdict := "Perfect & Calm Winds & Dry Conditions" } := by
  norm_num [get_score]
  rfl

/-- C8 counterexample: at temp 0.5, wind 25, rain 1 the code does not return
the stepped-variant result (score 25 with verdict
"Freezing & Windy & Potential Rain"). -/
theorem stepped_example_refuted :
    ¬ ((get_score 0.5 25 1).score = 25 ∧
        (get_score 0.5 25 1).score_verdict = "Freezing & Windy & Potential Rain") := by
  have hval : get_score 0.5 25 1 =
      { score := 69/2, score_verdict := "Very Cold & Windy & Light Rain" } := by
    norm_num [get_score, abs_of_nonneg]
    rfl
  rw [hval]
  rintro ⟨h1, h2⟩
  norm_num at h1

/-- C8 amended: at temp 0.5, wind 25, rain 1 the graduated scorer in the code
returns score 34.5 and verdict "Very Cold & Windy & Light Rain". -/
theorem get_score_at_stepped_input :
    get_score 0.5 25 1 =
      { score := 69/2, score_verdict := "Very Cold & Windy & Light Rain" } := by
  norm_num [get_score, abs_of_nonneg]
  rfl

/-- C9: the score is not always an integer: at temp 25, wind 1, rain 0 the
code produces 99.5, although the response model declares `score: int`. -/
theorem get_score_score_fractional :
    (get_score 25 1 0).score = 199/2 ∧ ¬ ∃ n : ℤ, (get_score 25 1 0).score = (n : ℚ) := by
  have hval : (get_score 25 1 0).score = 199/2 := by
    norm_num [get_score_score_eq, abs_of_nonneg]
  refine ⟨hval, ?_⟩
  rintro ⟨n, hn⟩
  rw [hval] at hn
  have h2 : (199 : ℚ) = 2 * (n : ℚ) := by linarith
  have h3 : (199 : ℤ) = 2 * n := by exact_mod_cast h2
  omega

/-- C10: any candidate selected under a 2-character country code agrees with it
up to case, so a candidate with a missing or empty country code is never
selected. -/
theorem selected_candidate_country_matches (cc : String) (st : Option String)
    (l : List Candidate) (c : Candidate) (hlen : cc.length = 2)
    (hsel : selectLocation cc st l = some c) :
    (c.country_code.getD "").toUpper = cc.toUpper ∧ c.country_code.getD "" ≠ "" := by
  have hne : cc ≠ "" := by
    intro hcc
    rw [hcc] at hlen
    simp at hlen
  rw [selectLocation_eq_find cc st hne l] at hsel
  have hp := List.find?_some hsel
  simp only [matchesQuery, Bool.and_eq_true, beq_iff_eq] at hp
  refine ⟨hp.1, ?_⟩
  intro hempty
  have hup := hp.1
  rw [hempty, toUpper_empty] at hup
  have hlen2 : cc.toUpper.length = 2 := by rw [length_toUpper]; exact hlen
  rw [← hup] at hlen2
  simp at hlen2

/-- Witness for C10 at the concrete Warwick query. -/
theorem selected_candidate_country_matches_witness :
    (("US" : String).length = 2 ∧
      selectLocation "US" (some "rhode") [candRI, candNY] = some candRI) ∧
    ((candRI.country_code.getD "").toUpper = ("US" : String).toUpper ∧
      candRI.country_code.getD "" ≠ "") :=
  ⟨⟨by decide, selectLocation_warwick⟩,
    selected_candidate_country_matches "US" (some "rhode") [candRI, candNY] candRI
      (by decide) selectLocation_warwick⟩
